import Mathlib

/-!
Shallow embedding of `src/scripts/image_metadata_overlay.py`.

The script is a single linear pipeline: download an image, extract EXIF
metadata from the same bytes, render the metadata onto the image with a
shadow-text effect, and save the result.  We embed the pure computations
directly and model the effectful library calls (HTTP fetch, image decode,
text measurement, file save) as explicit oracle arguments returning
`Except` values, mirroring where the Python code can raise.
-/

namespace ImageMetadataOverlay

/-- An EXIF tag set, as produced by `exifread.process_file`: a finite map
from tag name to the tag's rendered string value (the Python code only ever
uses `str(tag)` of a tag value).  Modelled as an association list; a present
tag models a truthy `tags.get(key, None)` result. -/
def ExifTags := List (String × String)

/-- `tags.get(key, None)` on the EXIF dictionary. -/
def ExifTags.get (tags : ExifTags) (key : String) : Option String :=
  match tags.find? (fun p => p.fst == key) with
  | some p => some p.snd
  | none => none

/-- The normalized metadata record built by `extract_exif_data`.  In the
Python code this is a dict to which all six keys are unconditionally
assigned; the structure type makes "all six fields present" intrinsic. -/
structure PhotoMetadata where
  camera : String
  lens : String
  aperture : String
  shutter : String
  iso : String
  datetime : String
deriving DecidableEq, Repr

/-- Exceptions that `extract_exif_data` can raise.
`zeroDivisionError` models Python's `ZeroDivisionError` from
`float(num) / float(denom)`; `valueError` models a `ValueError` from
`float()` on an unparsable string or from unpacking a `split('/')` of the
wrong length; `formatError` models the `ValueError` from unpacking
`datetime_str.split(' ')` when it does not have exactly two parts (the
spec's `FormatError`). -/
inductive ExtractError where
  | zeroDivisionError
  | valueError
  | formatError
deriving DecidableEq, Repr

/-- Python `s.split(sep)` for a one-character separator, on the character
list of the string: split at every occurrence of `sep`, keeping empty
parts, so the result always has one more part than there are occurrences
of `sep` (`"a  b".split(' ') == ["a", "", "b"]`, `"".split(' ') == [""]`). -/
def pySplitChars (sep : Char) : List Char → List (List Char)
  | [] => [[]]
  | c :: cs =>
    let r := pySplitChars sep cs
    if c = sep then [] :: r else (c :: r.headD []) :: r.tail

/-- Python `s.split(sep)` for a one-character separator. -/
def pySplit (sep : Char) (s : String) : List String :=
  (pySplitChars sep s.data).map String.mk

/-- Python `s.replace(old, new)` for one-character `old` and `new`: with a
one-character pattern, replacing every occurrence is a character-wise
map. -/
def pyReplace (old new : Char) (s : String) : String :=
  String.mk (s.data.map (fun c => if c = old then new else c))

/-- Drop leading whitespace characters. -/
def dropLeadingWs : List Char → List Char
  | [] => []
  | c :: cs => if c.isWhitespace then dropLeadingWs cs else c :: cs

/-- Python `s.strip()`: remove leading and trailing whitespace. -/
def pyStrip (s : String) : String :=
  String.mk ((dropLeadingWs ((dropLeadingWs s.data).reverse)).reverse)

/-- Python `sep in s` for a single character. -/
def pyContains (s : String) (c : Char) : Bool :=
  s.data.contains c

/-- Value of a decimal digit list, most significant digit first. -/
def digitsVal (l : List Char) : Nat :=
  l.foldl (fun a c => a * 10 + (c.toNat - 48)) 0

/-- The exact value of a parsed Python float literal: `num / 10 ^ exp`.
Python parses a decimal literal to the nearest IEEE double; we keep the
exact decimal value instead, which agrees with the double everywhere the
later one-decimal formatting can tell them apart on EXIF-sized inputs. -/
structure Decimal where
  num : Int
  exp : Nat
deriving DecidableEq, Repr

/-- Python `float(s)` on an unsigned body: digits with an optional
fractional part (`"8"`, `"8."`, `".5"`, `"2.8"`); `none` where `float()`
raises `ValueError`.  (Exponent, `inf`/`nan` and underscore forms are not
modelled; EXIF f-number strings do not use them.) -/
def parsePyFloatUnsigned (l : List Char) : Option Decimal :=
  match pySplitChars '.' l with
  | [i] =>
    if !i.isEmpty && i.all Char.isDigit then some ⟨digitsVal i, 0⟩ else none
  | [i, f] =>
    if (!i.isEmpty || !f.isEmpty) && i.all Char.isDigit && f.all Char.isDigit then
      some ⟨digitsVal i * 10 ^ f.length + digitsVal f, f.length⟩
    else none
  | _ => none

/-- Python `float(s)`: optional surrounding whitespace and sign around an
unsigned decimal body (see `parsePyFloatUnsigned`). -/
def parsePyFloat (s : String) : Option Decimal :=
  match (pyStrip s).data with
  | '-' :: r => (parsePyFloatUnsigned r).map (fun d => ⟨-d.num, d.exp⟩)
  | '+' :: r => parsePyFloatUnsigned r
  | t => parsePyFloatUnsigned t

/-- Decimal digit string of a natural number; fuel-based structural
recursion so the kernel can evaluate it. -/
def natDigitsAux (fuel n : Nat) : String :=
  match fuel with
  | 0 => ""
  | fuel + 1 =>
    if n < 10 then String.mk [Char.ofNat (48 + n)]
    else natDigitsAux fuel (n / 10) ++ String.mk [Char.ofNat (48 + n % 10)]

/-- Decimal digit string of a natural number. -/
def natDigits (n : Nat) : String :=
  natDigitsAux (n + 1) n

/-- Python `f"{v:.1f}"` for the exact rational value `n / d` (with
`d ≠ 0`): the magnitude is rounded to tenths with ties to even and printed
with one digit after the decimal point; a `-` sign is printed exactly when
the value is negative (so a tiny negative value prints as `"-0.0"`, as in
Python).  CPython formats the binary double nearest to the value; on the
exact decimal fractions produced by this script the two agree except on
decimal ties perturbed by the binary representation, and on IEEE negative
zero, which exact arithmetic does not produce. -/
def formatFix1 (n d : Int) : String :=
  let a := n.natAbs
  let b := d.natAbs
  let q := 10 * a / b
  let rem := 10 * a % b
  let r :=
    if 2 * rem < b then q
    else if b < 2 * rem then q + 1
    else if q % 2 = 0 then q else q + 1
  let body := natDigits (r / 10) ++ "." ++ natDigits (r % 10)
  if (n < 0 ∧ 0 < d) ∨ (0 < n ∧ d < 0) then "-" ++ body else body

/-- Lines 40–47: camera make/model normalization.
`if make and model: f"{make} {model}".strip() elif model: str(model)
else: "Unknown Camera"`. -/
def cameraOf (tags : ExifTags) : String :=
  match tags.get "Image Make", tags.get "Image Model" with
  | some make, some model => pyStrip (make ++ " " ++ model)
  | none, some model => model
  | _, none => "Unknown Camera"

/-- Lines 50–54: lens tag or the fallback. -/
def lensOf (tags : ExifTags) : String :=
  match tags.get "EXIF LensModel" with
  | some l => l
  | none => "Unknown Lens"

/-- Lines 57–68: aperture normalization.  If the tag value contains `'/'`
it is split on `'/'` and unpacked into exactly two parts (otherwise Python
raises `ValueError`), both parts converted by `float()` (raising
`ValueError` on failure), divided (raising `ZeroDivisionError` if the
denominator is zero) and formatted `f"f/{value:.1f}"`; a plain value is
formatted `f"f/{aperture_str}"` verbatim; an absent tag gives `"f/?"`.
The quotient `(x.num / 10^x.exp) / (y.num / 10^y.exp)` is passed to the
formatter as the exact fraction `x.num * 10^y.exp` over
`y.num * 10^x.exp`. -/
def apertureOf (tags : ExifTags) : Except ExtractError String :=
  match tags.get "EXIF FNumber" with
  | some s =>
    if pyContains s '/' then
      match pySplit '/' s with
      | [a, b] =>
        match parsePyFloat a, parsePyFloat b with
        | some x, some y =>
          if y.num = 0 then .error .zeroDivisionError
          else .ok ("f/" ++ formatFix1 (x.num * 10 ^ y.exp) (y.num * 10 ^ x.exp))
        | _, _ => .error .valueError
      | _ => .error .valueError
    else .ok ("f/" ++ s)
  | none => .ok "f/?"

/-- Lines 71–75: shutter speed `f"{shutter}s"` or the fallback. -/
def shutterOf (tags : ExifTags) : String :=
  match tags.get "EXIF ExposureTime" with
  | some v => v ++ "s"
  | none => "?s"

/-- Lines 78–82: ISO `f"ISO {iso}"` or the fallback. -/
def isoOf (tags : ExifTags) : String :=
  match tags.get "EXIF ISOSpeedRatings" with
  | some v => "ISO " ++ v
  | none => "ISO ?"

/-- Lines 85–94: datetime normalization.
`date_part, time_part = datetime_str.split(' ')` raises `ValueError`
(the spec's `FormatError`) unless the split has exactly two parts; then
all colons of the date part are replaced by hyphens. -/
def datetimeOf (tags : ExifTags) : Except ExtractError String :=
  match tags.get "EXIF DateTimeOriginal" with
  | some s =>
    match pySplit ' ' s with
    | [d, t] => .ok (pyReplace ':' '-' d ++ " " ++ t)
    | _ => .error .formatError
  | none => .ok "Unknown Date"

/-- Lines 29–96, `extract_exif_data` after the tag set is in hand: the six
field normalizations in source order.  Only the aperture and datetime
blocks can raise; the others are total. -/
def extract_exif_data (tags : ExifTags) : Except ExtractError PhotoMetadata := do
  let camera := cameraOf tags
  let lens := lensOf tags
  let aperture ← apertureOf tags
  let shutter := shutterOf tags
  let iso := isoOf tags
  let datetime ← datetimeOf tags
  pure ⟨camera, lens, aperture, shutter, iso, datetime⟩

/-- An RGB color, as the Python code passes `(r, g, b)` tuples to
`draw.text`. -/
structure Color where
  r : Nat
  g : Nat
  b : Nat
deriving DecidableEq, Repr

def white : Color := ⟨255, 255, 255⟩

def black : Color := ⟨0, 0, 0⟩

/-- One `draw.text((x, y), text, font=font, fill=color)` call issued by the
renderer.  The font is fixed for a whole render, so it is not recorded. -/
structure DrawCall where
  x : Int
  y : Int
  text : String
  color : Color
deriving DecidableEq, Repr

/-- Python `range(a, b)` over the integers. -/
def intRange (a b : Int) : List Int :=
  (List.range (b - a).toNat).map (fun i => a + i)

/-- Lines 99–110, `create_text_with_shadow`: for each `offset_x` and
`offset_y` in `range(-shadow_offset, shadow_offset + 1)` other than
`(0, 0)`, draw the text at the offset position in the shadow color, then
draw the text once at the given position in the text color.  The result is
the sequence of `draw.text` calls issued, in order. -/
def create_text_with_shadow (x y : Int) (text : String)
    (textColor shadowColor : Color) (shadowOffset : Int) : List DrawCall :=
  ((intRange (-shadowOffset) (shadowOffset + 1)).flatMap (fun ox =>
    (intRange (-shadowOffset) (shadowOffset + 1)).filterMap (fun oy =>
      if ox ≠ 0 ∨ oy ≠ 0 then some ⟨x + ox, y + oy, text, shadowColor⟩ else none)))
  ++ [⟨x, y, text, textColor⟩]

/-- The bounding box returned by `draw.textbbox((0, 0), line, font=font)`:
`(left, top, right, bottom)`. -/
structure Bbox where
  left : Int
  top : Int
  right : Int
  bottom : Int
deriving DecidableEq, Repr

/-- Errors the renderer's library calls can raise; text measurement is the
only fallible call inside `overlay_metadata` after the font is resolved
(font resolution itself is wrapped in `try/except` in the source and never
fails). -/
inductive RenderError where
  | measureFailure
deriving DecidableEq, Repr

/-- Lines 160–171, the left-side loop of `overlay_metadata`: draw each
line at `(margin, y_position)` with the shadow effect, stepping
`y_position` down by `line_spacing` after each line. -/
def drawLeftLines (margin y_position line_spacing : Int) :
    List String → List DrawCall
  | [] => []
  | line :: rest =>
    create_text_with_shadow margin y_position line white black 2 ++
      drawLeftLines margin (y_position + line_spacing) line_spacing rest

/-- Lines 173–190, the right-side loop of `overlay_metadata`: for each
line, measure its bounding box with `draw.textbbox((0, 0), line,
font=font)` (no exception handler around it in the source, so a
measurement failure propagates), draw the line at
`x = width - margin - text_width` with the shadow effect, and step
`y_position` down by `line_spacing`. -/
def drawRightLines (width margin y_position line_spacing : Int)
    (measure : String → Except RenderError Bbox) :
    List String → Except RenderError (List DrawCall)
  | [] => pure []
  | line :: rest => do
    let bbox ← measure line
    let text_width := bbox.right - bbox.left
    let calls := create_text_with_shadow (width - margin - text_width)
      y_position line white black 2
    let more ← drawRightLines width margin (y_position + line_spacing)
      line_spacing measure rest
    pure (calls ++ more)

/-- Lines 113–192, `overlay_metadata`, modelled as the sequence of
`draw.text` calls issued on a `width × height` copy of the image.  The
left block holds the three lines camera, lens,
`f"{aperture} {shutter} {iso}"` starting at
`y = height - margin - len(left_text_lines) * line_spacing`; the right
block holds the datetime line starting at
`y = height - margin - len(right_text_lines) * line_spacing`. -/
def overlay_metadata (width height : Int) (metadata : PhotoMetadata)
    (measure : String → Except RenderError Bbox) :
    Except RenderError (List DrawCall) := do
  let left_text_lines := [metadata.camera, metadata.lens,
    metadata.aperture ++ " " ++ metadata.shutter ++ " " ++ metadata.iso]
  let right_text_lines := [metadata.datetime]
  let margin : Int := 20
  let line_spacing : Int := 30
  let leftCalls := drawLeftLines margin
    (height - margin - (left_text_lines.length * line_spacing))
    line_spacing left_text_lines
  let rightCalls ← drawRightLines width margin
    (height - margin - (right_text_lines.length * line_spacing))
    line_spacing measure right_text_lines
  pure (leftCalls ++ rightCalls)

/-- Raw HTTP response bytes. -/
def Bytes := List Nat

/-- A decoded image as the renderer sees it: dimensions plus abstract pixel
content. -/
structure DecodedImage where
  width : Int
  height : Int
  pixels : List Nat
deriving DecidableEq, Repr

/-- The final composited output: the copied base image together with the
text draw calls burned into it. -/
structure Composite where
  base : DecodedImage
  calls : List DrawCall
deriving DecidableEq, Repr

/-- Any exception the pipeline can raise; `main` catches them all. -/
inductive PipelineError where
  | networkError (status : Nat)
  | timeoutError
  | decodeError
  | extractError (e : ExtractError)
  | renderError (e : RenderError)
  | ioError
deriving DecidableEq, Repr

/-- Lines 198–209, the body of `main`'s `try` block up to, but not
including, the final save, with the effectful library calls passed as
oracles: `fetch1` and `fetch2` are the two `requests.get` +
`raise_for_status` results (lines 24–25 and 32–33), `decodeImage` is
`Image.open`, `processFile` is `exifread.process_file` (total: it returns
an empty tag set on unrecognized input rather than raising), and
`measure` is `draw.textbbox`. -/
def preparePipeline (fetch1 fetch2 : Except PipelineError Bytes)
    (decodeImage : Bytes → Except PipelineError DecodedImage)
    (processFile : Bytes → ExifTags)
    (measure : String → Except RenderError Bbox) :
    Except PipelineError Composite := do
  let bytes1 ← fetch1
  let image ← decodeImage bytes1
  let bytes2 ← fetch2
  let metadata ← (extract_exif_data (processFile bytes2)).mapError .extractError
  let calls ← (overlay_metadata image.width image.height metadata measure).mapError .renderError
  pure ⟨image, calls⟩

/-- The content of the output path.  PIL's `Image.save` with a string
filename opens the path in mode `"w+b"`, creating the file or truncating
an existing one before any encoded bytes are written; a failure while
encoding or writing therefore leaves behind a newly created, truncated or
incompletely written file.  `truncated c` records such a leftover from a
failed save of `c`; `full c` is the completely written JPEG. -/
inductive OutputFile where
  | truncated (c : Composite)
  | full (c : Composite)
deriving DecidableEq, Repr

/-- Line 212, `image_with_metadata.save(OUTPUT_FILENAME, "JPEG",
quality=95)`, in its two phases.  First the path is opened with
`"w+b"`: `openResult` is the oracle for this `open` call — if it raises
(permissions, missing directory), the path keeps its prior content
`fs0`.  Once open succeeds the file is created/truncated, and
`writeResult` is the oracle for the encode-and-write phase: on success
the path holds the full image, on an `IOError` partway (e.g. disk full)
the truncated/partial file remains.  Returns the raised-or-ok outcome
and the resulting path content. -/
def pySave (openResult : Except PipelineError Unit)
    (writeResult : Composite → Except PipelineError Unit)
    (c : Composite) (fs0 : Option OutputFile) :
    Except PipelineError Unit × Option OutputFile :=
  match openResult with
  | .error e => (.error e, fs0)
  | .ok _ =>
    match writeResult c with
    | .ok _ => (.ok (), some (.full c))
    | .error e => (.error e, some (.truncated c))

/-- Lines 195–222: `main` wraps the pipeline in `try/except`; on success
it returns exit code 0, on any exception it prints the error to stderr
and returns exit code 1.  `fs0` is the prior content of the output path
(`none` when no file exists there); the path content after the run is
whatever the save phases left (see `pySave`), or `fs0` when the run
fails before the save.  Result: (exit code, output-path content, message
printed to stderr). -/
def mainRun (fetch1 fetch2 : Except PipelineError Bytes)
    (decodeImage : Bytes → Except PipelineError DecodedImage)
    (processFile : Bytes → ExifTags)
    (measure : String → Except RenderError Bbox)
    (openResult : Except PipelineError Unit)
    (writeResult : Composite → Except PipelineError Unit)
    (fs0 : Option OutputFile) :
    Nat × Option OutputFile × Option PipelineError :=
  match preparePipeline fetch1 fetch2 decodeImage processFile measure with
  | .error e => (1, fs0, some e)
  | .ok composite =>
    match pySave openResult writeResult composite fs0 with
    | (.ok _, fs) => (0, fs, none)
    | (.error e, fs) => (1, fs, some e)

/-- The observable output of one run on byte buffers already in hand: the
reference pipeline decodes the image from the first fetch's bytes and the
EXIF tags from the second fetch's bytes. -/
def two_fetch_pipeline (bytes1 bytes2 : Bytes)
    (decodeImage : Bytes → Except PipelineError DecodedImage)
    (processFile : Bytes → ExifTags)
    (measure : String → Except RenderError Bbox) :
    Except PipelineError (PhotoMetadata × Composite) := do
  let image ← decodeImage bytes1
  let metadata ← (extract_exif_data (processFile bytes2)).mapError .extractError
  let calls ← (overlay_metadata image.width image.height metadata measure).mapError .renderError
  pure (metadata, ⟨image, calls⟩)

/-- Modelled from the spec: the single-fetch reimplementation described in
the Design Notes — "fetch once and decode both image and EXIF tags from the
single byte buffer" — with observable output the extracted metadata and the
composited image. -/
def single_fetch_pipeline (bytes : Bytes)
    (decodeImage : Bytes → Except PipelineError DecodedImage)
    (processFile : Bytes → ExifTags)
    (measure : String → Except RenderError Bbox) :
    Except PipelineError (PhotoMetadata × Composite) := do
  let image ← decodeImage bytes
  let metadata ← (extract_exif_data (processFile bytes)).mapError .extractError
  let calls ← (overlay_metadata image.width image.height metadata measure).mapError .renderError
  pure (metadata, ⟨image, calls⟩)

/-! Helper lemmas shared by several claims. -/

/-- Unfolding of `extract_exif_data` by cases on its two fallible field
normalizations (aperture first, then datetime, in source order). -/
theorem extract_exif_data_cases (tags : ExifTags) :
    extract_exif_data tags =
      match apertureOf tags, datetimeOf tags with
      | .ok a, .ok d =>
        .ok ⟨cameraOf tags, lensOf tags, a, shutterOf tags, isoOf tags, d⟩
      | .error e, _ => .error e
      | .ok _, .error e => .error e := by
  unfold extract_exif_data
  cases apertureOf tags <;> cases datetimeOf tags <;> rfl

/-- On success, the metadata record is the six field normalizations. -/
theorem extract_exif_data_ok (tags : ExifTags) (md : PhotoMetadata)
    (h : extract_exif_data tags = .ok md) :
    apertureOf tags = .ok md.aperture ∧ datetimeOf tags = .ok md.datetime ∧
      md = ⟨cameraOf tags, lensOf tags, md.aperture, shutterOf tags,
        isoOf tags, md.datetime⟩ := by
  rw [extract_exif_data_cases] at h
  cases hap : apertureOf tags with
  | error e => rw [hap] at h; exact absurd h (by simp)
  | ok a =>
    cases hdt : datetimeOf tags with
    | error e => rw [hap, hdt] at h; exact absurd h (by simp)
    | ok d =>
      rw [hap, hdt] at h
      simp only [Except.ok.injEq] at h
      subst h
      exact ⟨rfl, rfl, rfl⟩

/-- C1: on every tag set on which extraction succeeds, the returned
`PhotoMetadata` has all six fields (intrinsically, by its structure type),
and every field whose source tag is missing equals its documented fallback
literal: "Unknown Camera" (camera, when both make and model are missing),
"Unknown Lens", "f/?", "?s", "ISO ?", "Unknown Date". -/
theorem extract_exif_data_fallbacks (tags : ExifTags) (md : PhotoMetadata)
    (h : extract_exif_data tags = .ok md) :
    (tags.get "Image Make" = none ∧ tags.get "Image Model" = none →
      md.camera = "Unknown Camera") ∧
    (tags.get "EXIF LensModel" = none → md.lens = "Unknown Lens") ∧
    (tags.get "EXIF FNumber" = none → md.aperture = "f/?") ∧
    (tags.get "EXIF ExposureTime" = none → md.shutter = "?s") ∧
    (tags.get "EXIF ISOSpeedRatings" = none → md.iso = "ISO ?") ∧
    (tags.get "EXIF DateTimeOriginal" = none → md.datetime = "Unknown Date") := by
  obtain ⟨hap, hdt, hmd⟩ := extract_exif_data_ok tags md h
  refine ⟨?_, ?_, ?_, ?_, ?_, ?_⟩
  · rintro ⟨hm, hM⟩
    rw [hmd]
    simp [cameraOf, hm, hM]
  · intro hl
    rw [hmd]
    simp [lensOf, hl]
  · intro hf
    simp only [apertureOf, hf] at hap
    exact (Except.ok.injEq _ _ ▸ hap).symm
  · intro hs
    rw [hmd]
    simp [shutterOf, hs]
  · intro hi
    rw [hmd]
    simp [isoOf, hi]
  · intro hd
    simp only [datetimeOf, hd] at hdt
    exact (Except.ok.injEq _ _ ▸ hdt).symm

/-- C1 witness: the empty tag set extracts successfully to the record of
all six fallback literals. -/
theorem extract_exif_data_fallbacks_witness :
    extract_exif_data [] = .ok ⟨"Unknown Camera", "Unknown Lens", "f/?",
      "?s", "ISO ?", "Unknown Date"⟩ ∧
    (PhotoMetadata.mk "Unknown Camera" "Unknown Lens" "f/?" "?s" "ISO ?"
      "Unknown Date").camera = "Unknown Camera" ∧
    (PhotoMetadata.mk "Unknown Camera" "Unknown Lens" "f/?" "?s" "ISO ?"
      "Unknown Date").lens = "Unknown Lens" ∧
    (PhotoMetadata.mk "Unknown Camera" "Unknown Lens" "f/?" "?s" "ISO ?"
      "Unknown Date").aperture = "f/?" ∧
    (PhotoMetadata.mk "Unknown Camera" "Unknown Lens" "f/?" "?s" "ISO ?"
      "Unknown Date").shutter = "?s" ∧
    (PhotoMetadata.mk "Unknown Camera" "Unknown Lens" "f/?" "?s" "ISO ?"
      "Unknown Date").iso = "ISO ?" ∧
    (PhotoMetadata.mk "Unknown Camera" "Unknown Lens" "f/?" "?s" "ISO ?"
      "Unknown Date").datetime = "Unknown Date" := by
  have hmd := extract_exif_data_fallbacks [] ⟨"Unknown Camera",
    "Unknown Lens", "f/?", "?s", "ISO ?", "Unknown Date"⟩ rfl
  exact ⟨rfl, hmd.1 ⟨rfl, rfl⟩, hmd.2.1 rfl, hmd.2.2.1 rfl,
    hmd.2.2.2.1 rfl, hmd.2.2.2.2.1 rfl, hmd.2.2.2.2.2 rfl⟩

/-- C4: camera normalization — both make and model present gives
`f"{make} {model}".strip()`; only model present gives the model alone;
model absent (whether or not make is present) gives "Unknown Camera". -/
theorem extract_exif_data_camera (tags : ExifTags) (md : PhotoMetadata)
    (h : extract_exif_data tags = .ok md) :
    (∀ make model, tags.get "Image Make" = some make →
      tags.get "Image Model" = some model →
      md.camera = pyStrip (make ++ " " ++ model)) ∧
    (∀ model, tags.get "Image Make" = none →
      tags.get "Image Model" = some model → md.camera = model) ∧
    (tags.get "Image Model" = none → md.camera = "Unknown Camera") := by
  obtain ⟨-, -, hmd⟩ := extract_exif_data_ok tags md h
  refine ⟨?_, ?_, ?_⟩
  · intro make model hm hM
    rw [hmd]
    simp [cameraOf, hm, hM]
  · intro model hm hM
    rw [hmd]
    simp [cameraOf, hm, hM]
  · intro hM
    rw [hmd]
    cases hm : tags.get "Image Make" <;> simp [cameraOf, hm, hM]

/-- C4 witness: make "Canon" and model "EOS 40D" give "Canon EOS 40D";
model "EOS 40D" alone gives "EOS 40D"; both absent gives
"Unknown Camera". -/
theorem extract_exif_data_camera_witness :
    extract_exif_data [("Image Make", "Canon"), ("Image Model", "EOS 40D")] =
      .ok ⟨"Canon EOS 40D", "Unknown Lens", "f/?", "?s", "ISO ?",
        "Unknown Date"⟩ ∧
    (PhotoMetadata.mk "Canon EOS 40D" "Unknown Lens" "f/?" "?s" "ISO ?"
      "Unknown Date").camera = pyStrip ("Canon" ++ " " ++ "EOS 40D") ∧
    (PhotoMetadata.mk "EOS 40D" "Unknown Lens" "f/?" "?s" "ISO ?"
      "Unknown Date").camera = "EOS 40D" ∧
    (PhotoMetadata.mk "Unknown Camera" "Unknown Lens" "f/?" "?s" "ISO ?"
      "Unknown Date").camera = "Unknown Camera" := by
  refine ⟨rfl, ?_, ?_, ?_⟩
  · exact (extract_exif_data_camera
      [("Image Make", "Canon"), ("Image Model", "EOS 40D")] _ rfl).1
      "Canon" "EOS 40D" rfl rfl
  · exact (extract_exif_data_camera [("Image Model", "EOS 40D")] _ rfl).2.1
      "EOS 40D" rfl rfl
  · exact (extract_exif_data_camera [] _ rfl).2.2 rfl

/-- The 24 shadow offsets, in the order the nested `range` loops of
`create_text_with_shadow` visit them. -/
def shadowOffsets : List (Int × Int) :=
  [(-2, -2), (-2, -1), (-2, 0), (-2, 1), (-2, 2),
   (-1, -2), (-1, -1), (-1, 0), (-1, 1), (-1, 2),
   (0, -2), (0, -1), (0, 1), (0, 2),
   (1, -2), (1, -1), (1, 0), (1, 1), (1, 2),
   (2, -2), (2, -1), (2, 0), (2, 1), (2, 2)]

/-- The expansion of `create_text_with_shadow` with the standard colors and
offset 2 into one black call per shadow offset plus the final white call. -/
theorem create_text_with_shadow_eq (x y : Int) (text : String) :
    create_text_with_shadow x y text white black 2 =
      shadowOffsets.map (fun d =>
        ⟨x + d.1, y + d.2, text, black⟩) ++ [⟨x, y, text, white⟩] := rfl

/-- The shadow offsets are the integer square `[-2, 2] × [-2, 2]` minus
the origin. -/
theorem shadowOffsets_mem (dx dy : Int) :
    (dx, dy) ∈ shadowOffsets ↔
      -2 ≤ dx ∧ dx ≤ 2 ∧ -2 ≤ dy ∧ dy ≤ 2 ∧ ¬(dx = 0 ∧ dy = 0) := by
  simp only [shadowOffsets, List.mem_cons, List.not_mem_nil, or_false,
    Prod.mk.injEq]
  constructor
  · intro h
    omega
  · rintro ⟨h1, h2, h3, h4, h5⟩
    interval_cases dx <;> interval_cases dy <;> simp_all

/-- C5: each rendered line issues exactly 24 draw calls of the text in the
shadow color (black), one at each offset `(dx, dy)` with
`dx, dy ∈ [-2, 2]` and `(dx, dy) ≠ (0, 0)` (each offset occurring once),
followed by exactly one final draw call of the same text in white at
offset `(0, 0)`. -/
theorem create_text_with_shadow_calls (x y : Int) (text : String) :
    create_text_with_shadow x y text white black 2 =
      shadowOffsets.map (fun d =>
        ⟨x + d.1, y + d.2, text, black⟩) ++ [⟨x, y, text, white⟩] ∧
    shadowOffsets.length = 24 ∧
    shadowOffsets.Nodup ∧
    (∀ dx dy : Int, (dx, dy) ∈ shadowOffsets ↔
      -2 ≤ dx ∧ dx ≤ 2 ∧ -2 ≤ dy ∧ dy ≤ 2 ∧ ¬(dx = 0 ∧ dy = 0)) :=
  ⟨create_text_with_shadow_eq x y text, rfl, by decide, shadowOffsets_mem⟩

/-- C5 witness: at a concrete position and text, there are 25 calls in
total and the last one is the white main-text call. -/
theorem create_text_with_shadow_calls_witness :
    (create_text_with_shadow 20 50 "Canon EOS 40D" white black 2).length = 25 ∧
    (create_text_with_shadow 20 50 "Canon EOS 40D" white black 2).getLast? =
      some ⟨20, 50, "Canon EOS 40D", white⟩ := by
  rw [(create_text_with_shadow_calls 20 50 "Canon EOS 40D").1]
  exact ⟨rfl, rfl⟩

/-- C9: the single-fetch pipeline (decode image and EXIF tags from one
byte buffer) has the same observable output — the same `PhotoMetadata`
and the same composited image — as the reference two-fetch pipeline when
both of the reference pipeline's fetches return the same bytes. -/
theorem single_fetch_refines_two_fetch (bytes : Bytes)
    (decodeImage : Bytes → Except PipelineError DecodedImage)
    (processFile : Bytes → ExifTags)
    (measure : String → Except RenderError Bbox) :
    single_fetch_pipeline bytes decodeImage processFile measure =
      two_fetch_pipeline bytes bytes decodeImage processFile measure := rfl

/-- C10: a present f-number tag of fraction form with a zero denominator
reaches the unguarded `float(num) / float(denom)` and raises
`ZeroDivisionError` at the public interface of `extract_exif_data`, rather
than producing an aperture string or one of the documented error kinds. -/
theorem extract_exif_data_zero_denominator :
    extract_exif_data [("EXIF FNumber", "8/0")] =
      .error .zeroDivisionError := rfl

/-- C2: datetime normalization, with the aperture block — the only
earlier fallible block — assumed not to raise.  A present timestamp whose
`split(' ')` has exactly two parts `d` and `t` (i.e. containing exactly
one space separating date and time) succeeds, the datetime field being `d`
with every colon replaced by a hyphen, then a space, then `t` (so
"2008:05:30 15:56:01" yields "2008-05-30 15:56:01"); a present timestamp
whose split does not have exactly two parts makes extraction fail with
`FormatError`; an absent timestamp gives "Unknown Date". -/
theorem extract_exif_data_datetime (tags : ExifTags) (a : String)
    (hap : apertureOf tags = .ok a) :
    (∀ s d t, tags.get "EXIF DateTimeOriginal" = some s →
      pySplit ' ' s = [d, t] →
      extract_exif_data tags = .ok ⟨cameraOf tags, lensOf tags, a,
        shutterOf tags, isoOf tags, pyReplace ':' '-' d ++ " " ++ t⟩) ∧
    (∀ s, tags.get "EXIF DateTimeOriginal" = some s →
      (∀ d t, pySplit ' ' s ≠ [d, t]) →
      extract_exif_data tags = .error .formatError) ∧
    (tags.get "EXIF DateTimeOriginal" = none →
      extract_exif_data tags = .ok ⟨cameraOf tags, lensOf tags, a,
        shutterOf tags, isoOf tags, "Unknown Date"⟩) := by
  refine ⟨?_, ?_, ?_⟩
  · intro s d t hs hsplit
    have hdt : datetimeOf tags = .ok (pyReplace ':' '-' d ++ " " ++ t) := by
      simp [datetimeOf, hs, hsplit]
    rw [extract_exif_data_cases, hap, hdt]
  · intro s hs hne
    have hdt : datetimeOf tags = .error .formatError := by
      simp only [datetimeOf, hs]
    rw [extract_exif_data_cases, hap, hdt]
  · intro hs
    have hdt : datetimeOf tags = .ok "Unknown Date" := by
      simp [datetimeOf, hs]
    rw [extract_exif_data_cases, hap, hdt]

/-- C2 witness: the three cases at concrete tag sets. -/
theorem extract_exif_data_datetime_witness :
    extract_exif_data [("EXIF DateTimeOriginal", "2008:05:30 15:56:01")] =
      .ok ⟨"Unknown Camera", "Unknown Lens", "f/?", "?s", "ISO ?",
        "2008-05-30 15:56:01"⟩ ∧
    extract_exif_data [("EXIF DateTimeOriginal", "20080530155601")] =
      .error .formatError ∧
    extract_exif_data [("EXIF ISOSpeedRatings", "100")] =
      .ok ⟨"Unknown Camera", "Unknown Lens", "f/?", "?s", "ISO 100",
        "Unknown Date"⟩ := by
  refine ⟨?_, ?_, ?_⟩
  · exact (extract_exif_data_datetime
      [("EXIF DateTimeOriginal", "2008:05:30 15:56:01")] "f/?" rfl).1
      "2008:05:30 15:56:01" "2008:05:30" "15:56:01" rfl rfl
  · refine (extract_exif_data_datetime
      [("EXIF DateTimeOriginal", "20080530155601")] "f/?" rfl).2.1
      "20080530155601" rfl ?_
    intro d t hdt
    have he : pySplit ' ' "20080530155601" = ["20080530155601"] := rfl
    rw [he] at hdt
    simp at hdt
  · exact (extract_exif_data_datetime
      [("EXIF ISOSpeedRatings", "100")] "f/?" rfl).2.2 rfl


/-- C3: aperture normalization on any successful extraction.  A present
f-number of fraction form `num/denom` (the value contains `'/'` and splits
into exactly the two parts `n` and `d`, both parsing as numbers) gives
the exact quotient formatted to one decimal place as `f"f/{value:.1f}"`
(so "8/1" yields "f/8.0" — see the witness); a present plain value (no
`'/'`) is formatted verbatim as `f"f/{value}"` (so "4" yields "f/4"); an
absent tag gives "f/?". -/
theorem extract_exif_data_aperture (tags : ExifTags) (md : PhotoMetadata)
    (h : extract_exif_data tags = .ok md) :
    (∀ s n d x y, tags.get "EXIF FNumber" = some s →
      pyContains s '/' = true → pySplit '/' s = [n, d] →
      parsePyFloat n = some x → parsePyFloat d = some y →
      md.aperture =
        "f/" ++ formatFix1 (x.num * 10 ^ y.exp) (y.num * 10 ^ x.exp)) ∧
    (∀ s, tags.get "EXIF FNumber" = some s → pyContains s '/' = false →
      md.aperture = "f/" ++ s) ∧
    (tags.get "EXIF FNumber" = none → md.aperture = "f/?") := by
  obtain ⟨hap, -, -⟩ := extract_exif_data_ok tags md h
  refine ⟨?_, ?_, ?_⟩
  · intro s n d x y hs hc hsplit hx hy
    simp only [apertureOf, hs, hc, hsplit, hx, hy] at hap
    by_cases hz : y.num = 0
    · rw [if_pos hz] at hap
      simp at hap
    · rw [if_neg hz] at hap
      exact (Except.ok.inj hap).symm
  · intro s hs hc
    simp only [apertureOf, hs, hc, Bool.false_eq_true, if_false,
      Except.ok.injEq] at hap
    exact hap.symm
  · intro hf
    simp only [apertureOf, hf, Except.ok.injEq] at hap
    exact hap.symm

/-- C3 witness: "8/1" yields "f/8.0" via the one-decimal formatting of
the quotient, "4" yields "f/4" verbatim, and a missing tag yields
"f/?". -/
theorem extract_exif_data_aperture_witness :
    extract_exif_data [("EXIF FNumber", "8/1")] =
      .ok ⟨"Unknown Camera", "Unknown Lens", "f/8.0", "?s", "ISO ?",
        "Unknown Date"⟩ ∧
    (PhotoMetadata.mk "Unknown Camera" "Unknown Lens" "f/8.0" "?s" "ISO ?"
      "Unknown Date").aperture =
      "f/" ++ formatFix1 (8 * 10 ^ 0) (1 * 10 ^ 0) ∧
    extract_exif_data [("EXIF FNumber", "4")] =
      .ok ⟨"Unknown Camera", "Unknown Lens", "f/4", "?s", "ISO ?",
        "Unknown Date"⟩ ∧
    (PhotoMetadata.mk "Unknown Camera" "Unknown Lens" "f/4" "?s" "ISO ?"
      "Unknown Date").aperture = "f/" ++ "4" ∧
    (PhotoMetadata.mk "Unknown Camera" "Unknown Lens" "f/?" "?s" "ISO ?"
      "Unknown Date").aperture = "f/?" := by
  refine ⟨rfl, ?_, rfl, ?_, ?_⟩
  · exact (extract_exif_data_aperture [("EXIF FNumber", "8/1")] _ rfl).1
      "8/1" "8" "1" ⟨8, 0⟩ ⟨1, 0⟩ rfl rfl rfl rfl rfl
  · exact (extract_exif_data_aperture [("EXIF FNumber", "4")] _ rfl).2.1
      "4" rfl rfl
  · exact (extract_exif_data_aperture [] _ rfl).2.2 rfl



/-- C6: for a `w × h` image and a fully populated metadata record, the
left block's three lines — camera; lens; aperture, shutter and iso joined
by single spaces — are placed left-aligned at `x = 20`, the first at
`y = h - 20 - 3*30` and each subsequent line 30 px lower; the datetime
line is placed at `y = h - 20 - 30` with `x = w - 20 - text_width`, i.e.
with its right edge at `x = w - 20`. -/
theorem overlay_metadata_layout (w h : Int) (md : PhotoMetadata)
    (measure : String → Except RenderError Bbox) (bbox : Bbox)
    (hm : measure md.datetime = .ok bbox) :
    overlay_metadata w h md measure = .ok (
      create_text_with_shadow 20 (h - 20 - 3 * 30) md.camera white black 2 ++
      create_text_with_shadow 20 (h - 20 - 3 * 30 + 30) md.lens
        white black 2 ++
      create_text_with_shadow 20 (h - 20 - 3 * 30 + 30 + 30)
        (md.aperture ++ " " ++ md.shutter ++ " " ++ md.iso) white black 2 ++
      create_text_with_shadow (w - 20 - (bbox.right - bbox.left))
        (h - 20 - 30) md.datetime white black 2) := by
  simp [overlay_metadata, drawLeftLines, drawRightLines, hm,
    List.append_assoc]



/-- C6 witness: the layout on a 100 × 100 image with a measured text
width of 40. -/
theorem overlay_metadata_layout_witness :
    overlay_metadata 100 100
      ⟨"Test Cam", "Test Lens", "f/2.0", "1/100s", "ISO 200",
        "2020-01-01 00:00:00"⟩ (fun _ => .ok ⟨0, 0, 40, 10⟩) = .ok (
      create_text_with_shadow 20 (100 - 20 - 3 * 30) "Test Cam"
        white black 2 ++
      create_text_with_shadow 20 (100 - 20 - 3 * 30 + 30) "Test Lens"
        white black 2 ++
      create_text_with_shadow 20 (100 - 20 - 3 * 30 + 30 + 30)
        ("f/2.0" ++ " " ++ "1/100s" ++ " " ++ "ISO 200") white black 2 ++
      create_text_with_shadow (100 - 20 - (40 - 0))
        (100 - 20 - 30) "2020-01-01 00:00:00" white black 2) :=
  overlay_metadata_layout 100 100
    ⟨"Test Cam", "Test Lens", "f/2.0", "1/100s", "ISO 200",
      "2020-01-01 00:00:00"⟩ (fun _ => .ok ⟨0, 0, 40, 10⟩)
    ⟨0, 0, 40, 10⟩ rfl

/-- C7 counterexample: when text measurement fails for the resolved
font, the renderer does not fall back to left-margin alignment — it
propagates the measurement error instead of returning a composited
image. -/
theorem overlay_metadata_measure_failure_counterexample :
    overlay_metadata 100 100
      ⟨"Test Cam", "Test Lens", "f/2.0", "1/100s", "ISO 200",
        "2020-01-01 00:00:00"⟩ (fun _ => .error .measureFailure) =
      .error .measureFailure := rfl

/-- C7 (amended): if width measurement of the datetime string fails,
`overlay_metadata` propagates the error (there is no exception handler
around `draw.textbbox` in the source); the failure is caught only by
`main`'s top-level handler, so no composited image is produced. -/
theorem overlay_metadata_measure_error_propagates (w h : Int)
    (md : PhotoMetadata) (measure : String → Except RenderError Bbox)
    (e : RenderError) (hm : measure md.datetime = .error e) :
    overlay_metadata w h md measure = .error e := by
  simp [overlay_metadata, drawRightLines, hm]

/-- C7 witness: a concrete render with an always-failing measurement
oracle propagates the failure. -/
theorem overlay_metadata_measure_error_propagates_witness :
    overlay_metadata 640 480
      ⟨"Canon EOS 40D", "Unknown Lens", "f/8.0", "1/160s", "ISO 100",
        "2008-05-30 15:56:01"⟩ (fun _ => .error .measureFailure) =
      .error .measureFailure :=
  overlay_metadata_measure_error_propagates 640 480
    ⟨"Canon EOS 40D", "Unknown Lens", "f/8.0", "1/160s", "ISO 100",
      "2008-05-30 15:56:01"⟩ (fun _ => .error .measureFailure)
    .measureFailure rfl

/-- C8 counterexample: a run in which every stage succeeds except the
encode-and-write phase of the final save (an `IOError` partway, e.g.
disk full) exits with code 1 — an uncaught failure printed to stderr —
yet the output path, empty before the run (`fs0 = none`), now holds a
created, truncated/partial file: it is not true that on any uncaught
failure the output file is neither created nor modified. -/
theorem mainRun_save_failure_counterexample :
    (mainRun (.ok []) (.ok []) (fun _ => .ok ⟨100, 100, []⟩) (fun _ => [])
      (fun _ => .ok ⟨0, 0, 40, 10⟩) (.ok ())
      (fun _ => .error .ioError) none).1 = 1 ∧
    (mainRun (.ok []) (.ok []) (fun _ => .ok ⟨100, 100, []⟩) (fun _ => [])
      (fun _ => .ok ⟨0, 0, 40, 10⟩) (.ok ())
      (fun _ => .error .ioError) none).2.2 = some .ioError ∧
    (mainRun (.ok []) (.ok []) (fun _ => .ok ⟨100, 100, []⟩) (fun _ => [])
      (fun _ => .ok ⟨0, 0, 40, 10⟩) (.ok ())
      (fun _ => .error .ioError) none).2.1.isSome = true :=
  ⟨rfl, rfl, rfl⟩

/-- C8 (amended): exactly one of four outcomes.  On full success the run
exits 0 with the fully composited image written and nothing on stderr.
On any failure before the save starts — including a non-2xx fetch
response — and likewise when the save's `open` of the output path itself
fails, the run exits 1 with the failure printed to stderr and the output
path neither created nor modified.  On a failure during the
encode-and-write phase of the save, the run exits 1 with the failure
printed to stderr, but the output path has already been
created/truncated by the attempted write, so a partial file remains:
"either a fully composited image is written or nothing is written" holds
of all stages except the write itself. -/
theorem mainRun_exit_spec (fetch1 fetch2 : Except PipelineError Bytes)
    (decodeImage : Bytes → Except PipelineError DecodedImage)
    (processFile : Bytes → ExifTags)
    (measure : String → Except RenderError Bbox)
    (openResult : Except PipelineError Unit)
    (writeResult : Composite → Except PipelineError Unit)
    (fs0 : Option OutputFile) :
    ((∃ c, preparePipeline fetch1 fetch2 decodeImage processFile measure =
        .ok c ∧ openResult = .ok () ∧ writeResult c = .ok () ∧
      mainRun fetch1 fetch2 decodeImage processFile measure openResult
        writeResult fs0 = (0, some (.full c), none)) ∨
    (∃ c e, preparePipeline fetch1 fetch2 decodeImage processFile measure =
        .ok c ∧ openResult = .ok () ∧ writeResult c = .error e ∧
      mainRun fetch1 fetch2 decodeImage processFile measure openResult
        writeResult fs0 = (1, some (.truncated c), some e)) ∨
    (∃ c e, preparePipeline fetch1 fetch2 decodeImage processFile measure =
        .ok c ∧ openResult = .error e ∧
      mainRun fetch1 fetch2 decodeImage processFile measure openResult
        writeResult fs0 = (1, fs0, some e)) ∨
    (∃ e, preparePipeline fetch1 fetch2 decodeImage processFile measure =
        .error e ∧
      mainRun fetch1 fetch2 decodeImage processFile measure openResult
        writeResult fs0 = (1, fs0, some e))) ∧
    mainRun (.error (.networkError 500)) fetch2 decodeImage processFile
      measure openResult writeResult fs0 =
      (1, fs0, some (.networkError 500)) := by
  constructor
  · cases hp : preparePipeline fetch1 fetch2 decodeImage processFile measure with
    | error e => exact .inr (.inr (.inr ⟨e, rfl, by simp [mainRun, hp]⟩))
    | ok c =>
      cases ho : openResult with
      | error e =>
        exact .inr (.inr (.inl ⟨c, e, rfl, rfl,
          by simp [mainRun, pySave, hp, ho]⟩))
      | ok u =>
        cases hw : writeResult c with
        | ok v =>
          exact .inl ⟨c, rfl, rfl, hw,
            by simp [mainRun, pySave, hp, ho, hw]⟩
        | error e =>
          exact .inr (.inl ⟨c, e, rfl, rfl, hw,
            by simp [mainRun, pySave, hp, ho, hw]⟩)
  · rfl

end ImageMetadataOverlay
